import Mathlib

/-!
Verification of the kamiyo-ai/risk-auditor payment middleware and data
service against its natural-language specification.

The definitions below are a shallow embedding of the TypeScript source:

* `RiskAuditor.verifyPayment`, `RiskAuditor.admitRequest` embed
  `verifyPayment` and the request handler returned by `x402Middleware`
  in `src/x402/middleware.ts`.  The in-memory `paymentCache` (a JS
  `Map`) is an association list threaded through the functions; the
  Solana RPC connection is a function from transaction signature to a
  lookup outcome; `Date.now()` is an explicit `now : Nat` parameter
  (milliseconds).
* `RiskAuditor.fetchExploits`, `RiskAuditor.isSourceHealthy`,
  `RiskAuditor.handleSourceFailure` embed `DataService` in
  `src/services/data-service.ts`; `RiskAuditor.fetchKamiyoExploits`
  embeds the wrapper of the same name in `src/index.ts`.  The
  module-level `DATA_SOURCES` array is a `List DataSource`; object
  identity of the JS array elements is position, so sources are
  addressed by index.  Each `axios.get` attempt is a function from the
  source index to its outcome.
-/

namespace RiskAuditor

/-! ### Generic association-list operations (the JS `Map` operations used) -/

/-- `Map.get` on a string-keyed association list. -/
def assocGet {β : Type} (c : List (String × β)) (k : String) : Option β :=
  match c with
  | [] => none
  | (k', v) :: rest => if k' = k then some v else assocGet rest k

/-- `Map.set`: replace the binding for `k` when present, append otherwise. -/
def assocSet {β : Type} (c : List (String × β)) (k : String) (v : β) :
    List (String × β) :=
  match c with
  | [] => [(k, v)]
  | (k', w) :: rest =>
    if k' = k then (k', v) :: rest else (k', w) :: assocSet rest k v

/-- `Map.delete`. -/
def assocDelete {β : Type} (c : List (String × β)) (k : String) :
    List (String × β) :=
  match c with
  | [] => []
  | (k', w) :: rest =>
    if k' = k then assocDelete rest k else (k', w) :: assocDelete rest k

/-- In-place mutation of the entry stored under `k` (JS object aliasing). -/
def assocUpdate {β : Type} (c : List (String × β)) (k : String) (f : β → β) :
    List (String × β) :=
  match c with
  | [] => []
  | (k', w) :: rest =>
    if k' = k then (k', f w) :: rest else (k', w) :: assocUpdate rest k f

/-! ### x402 payment middleware (`src/x402/middleware.ts`) -/

/-- `PRICE_PER_REQUEST_LAMPORTS = 1_000_000` (0.001 SOL). -/
def PRICE_PER_REQUEST_LAMPORTS : Int := 1000000

/-- The hard-coded access window / proof-cache TTL: 3600000 ms (one hour). -/
def ACCESS_WINDOW_MS : Nat := 3600000

/-- Decoded `payload` of an x402 payment header.  In the source the
`amount` field is a decimal string to which `parseInt` is applied; here it
is carried directly as the parsed integer. -/
structure X402Payload where
  signature : String
  amount : Int
  recipient : String
deriving Repr, DecidableEq

/-- Decoded x402 payment header (`X402Payment` in `src/x402/types.ts`). -/
structure X402Payment where
  x402Version : Nat
  scheme : String
  network : String
  payload : X402Payload
deriving Repr, DecidableEq

/-- `PaymentProof`: a `paymentCache` entry.  `timestamp` is `first_seen_at`;
`requestCount` is the reuse count. -/
structure PaymentProof where
  signature : String
  amount : Int
  timestamp : Nat
  requestCount : Nat
deriving Repr, DecidableEq

/-- The module-level `paymentCache : Map<string, PaymentProof>`. -/
abbrev PaymentCache := List (String × PaymentProof)

/-- A transaction as seen by the verifier: the static account keys of the
message together with the pre/post lamport balances (`tx.meta`). -/
structure SolTx where
  accountKeys : List String
  preBalances : List Int
  postBalances : List Int
deriving Repr, DecidableEq

/-- Outcome of `connection.getTransaction(signature, ...)`: a confirmed
transaction, `null` (absent / not confirmed), or a thrown I/O exception
(network error or timeout) carrying its message. -/
inductive TxLookup where
  | found (tx : SolTx)
  | notFound
  | ioError (msg : String)

/-- The `{ success, error? }` object returned by `verifyPayment`. -/
inductive VerifyResult where
  | success
  | failure (error : String)
deriving Repr, DecidableEq

/-- Embedding of `verifyPayment`.  Returns the verification result paired
with the number of `getTransaction` ledger lookups performed (0 on the
cache short-circuit, 1 otherwise).  The thrown-exception path of the
`try/catch` is the `ioError` branch: it is caught and turned into
`{ success: false, error: error.message }`. -/
def verifyPayment (paymentWallet : String) (ledger : String → TxLookup)
    (cache : PaymentCache) (payment : X402Payment) : VerifyResult × Nat :=
  let sig := payment.payload.signature
  if (assocGet cache sig).isSome then
    (.success, 0)
  else
    match ledger sig with
    | .ioError msg => (.failure msg, 1)
    | .notFound => (.failure "Transaction not found or not confirmed", 1)
    | .found tx =>
      match tx.accountKeys.findIdx? (fun key => key = payment.payload.recipient) with
      | none => (.failure "Payment recipient mismatch", 1)
      | some recipientIndex =>
        if payment.payload.recipient ≠ paymentWallet then
          (.failure "Invalid payment recipient", 1)
        else
          let amountTransferred :=
            tx.postBalances.getD recipientIndex 0 - tx.preBalances.getD recipientIndex 0
          if amountTransferred < PRICE_PER_REQUEST_LAMPORTS then
            (.failure "Insufficient payment", 1)
          else if (amountTransferred - payment.payload.amount).natAbs > 100 then
            (.failure "Payment amount mismatch", 1)
          else
            (.success, 1)

/-- The `X402PaymentResponse` success header (flattened `resourceAccess`). -/
structure X402PaymentResponse where
  txHash : String
  networkId : String
  success : Bool
  amount : Int
  timestamp : Nat
  expiresAt : Nat
  requestsRemaining : Int
deriving Repr, DecidableEq

/-- What the middleware sends back (or whether it calls `next()`). -/
inductive AdmitOutcome where
  /-- `send402Response`: the structured payment-required challenge. -/
  | paymentRequired
  /-- `sendX402Error(error, code)`. -/
  | errorResponse (error : String) (code : Nat)
  /-- `next()` was called with the given `X-PAYMENT-RESPONSE` receipt. -/
  | granted (receipt : X402PaymentResponse)
deriving Repr, DecidableEq

/-- The inbound `X-PAYMENT` header after transport decoding: absent,
undecodable (base64/JSON/required-field failure), or a decoded payment. -/
inductive RequestHeader where
  | missing
  | malformed (msg : String)
  | payment (p : X402Payment)

/-- Result of one middleware invocation: the response outcome, the
`paymentCache` afterwards, and how many ledger lookups were made. -/
structure AdmitResult where
  outcome : AdmitOutcome
  cache : PaymentCache
  ledgerLookups : Nat
deriving Repr, DecidableEq

/-- The receipt built on admission: note `expiresAt = Date.now() + 3600000`
is recomputed from the current call's clock. -/
def grantResponse (pd : X402Payment) (now : Nat) : X402PaymentResponse where
  txHash := pd.payload.signature
  networkId := "solana-mainnet"
  success := true
  amount := pd.payload.amount
  timestamp := now
  expiresAt := now + ACCESS_WINDOW_MS
  requestsRemaining := -1

/-- Embedding of the request handler returned by `x402Middleware`
(`admitRequest`): header decode, version/network checks, `verifyPayment`, then
the cache consult/update block, in source order. -/
def admitRequest (paymentWallet : String) (ledger : String → TxLookup) (now : Nat)
    (cache : PaymentCache) (header : RequestHeader) : AdmitResult :=
  match header with
  | .missing => ⟨.paymentRequired, cache, 0⟩
  | .malformed msg => ⟨.errorResponse msg 400, cache, 0⟩
  | .payment pd =>
    if pd.x402Version ≠ 1 then
      ⟨.errorResponse "Unsupported x402 version" 400, cache, 0⟩
    else if pd.network ≠ "solana-mainnet" then
      ⟨.errorResponse "Unsupported network" 400, cache, 0⟩
    else
      match verifyPayment paymentWallet ledger cache pd with
      | (.failure err, n) => ⟨.errorResponse err 402, cache, n⟩
      | (.success, n) =>
        let sig := pd.payload.signature
        match assocGet cache sig with
        | some cached =>
          if now - cached.timestamp > ACCESS_WINDOW_MS then
            ⟨.paymentRequired, assocDelete cache sig, n⟩
          else
            ⟨.granted (grantResponse pd now),
             assocUpdate cache sig
               (fun pr => { pr with requestCount := pr.requestCount + 1 }), n⟩
        | none =>
          ⟨.granted (grantResponse pd now),
           assocSet cache sig ⟨sig, pd.payload.amount, now, 1⟩, n⟩

/-- `admitRequest` iterated over a list of call times with a fixed header,
threading the `paymentCache` (the spec's "calling admitRequest() N times"). -/
def admitTimes (paymentWallet : String) (ledger : String → TxLookup)
    (pd : X402Payment) : List Nat → PaymentCache → List AdmitOutcome × PaymentCache
  | [], cache => ([], cache)
  | t :: ts, cache =>
    let r := admitRequest paymentWallet ledger t cache (.payment pd)
    let rest := admitTimes paymentWallet ledger pd ts r.cache
    (r.outcome :: rest.1, rest.2)

/-- Is the outcome a 402 `sendX402Error` rejection (the shape used for
every failed verification, payment-invalid or not)? -/
def AdmitOutcome.isRejected402 : AdmitOutcome → Bool
  | .errorResponse _ 402 => true
  | _ => false

/-- The `resourceAccess.expiresAt` field of a grant, if the outcome is one. -/
def AdmitOutcome.expiresAt? : AdmitOutcome → Option Nat
  | .granted r => some r.expiresAt
  | _ => none

/-! ### Concrete demonstration fixtures -/

/-- A ledger holding one confirmed transaction `"sig1"` crediting wallet
`"W"` with exactly 1000000 lamports. -/
def demoLedger : String → TxLookup := fun sig =>
  if sig = "sig1" then .found ⟨["payer", "W"], [5000000, 0], [3999995, 1000000]⟩
  else .notFound

/-- A well-formed payment header naming the configured wallet `"W"`. -/
def demoPayment : X402Payment :=
  ⟨1, "exact", "solana-mainnet", ⟨"sig1", 1000000, "W"⟩⟩

/-- The same header with the payload recipient replaced by an
unrelated address `"X"`. -/
def demoForgedPayment : X402Payment :=
  ⟨1, "exact", "solana-mainnet", ⟨"sig1", 1000000, "X"⟩⟩

/-! ### Data service (`src/services/data-service.ts`, `src/index.ts`) -/

/-- `CIRCUIT_BREAKER_THRESHOLD = 5`. -/
def CIRCUIT_BREAKER_THRESHOLD : Nat := 5

/-- `CIRCUIT_BREAKER_TIMEOUT = 60000` ms. -/
def CIRCUIT_BREAKER_TIMEOUT : Nat := 60000

/-- `CACHE_TTL = 300000` ms (5 minutes, response cache). -/
def CACHE_TTL : Nat := 300000

/-- A `DataSource` record.  `failures` is `consecutive_failures`;
`lastCheck` is the last state-change / failure timestamp. -/
structure DataSource where
  name : String
  priority : Int
  healthy : Bool
  failures : Nat
  lastCheck : Nat
deriving Repr, DecidableEq, Inhabited

/-- One item of exploit data (the fields the claims do not inspect are
dropped; entries are compared as opaque values). -/
structure Exploit where
  protocol : String
  lossUsd : Int
deriving Repr, DecidableEq

/-- A response-cache entry `{ data, timestamp }`. -/
structure RespEntry where
  data : List Exploit
  timestamp : Nat
deriving Repr, DecidableEq

/-- The private `cache : Map<string, { data, timestamp }>`. -/
abbrev RespCache := List (String × RespEntry)

/-- The JS sort comparator in `getSortedSources` (negative means `a`
sorts before `b`): healthy descending, then `a.priority - b.priority`. -/
def sourceCompare (a b : DataSource) : Int :=
  if a.healthy && !b.healthy then -1
  else if !a.healthy && b.healthy then 1
  else a.priority - b.priority

/-- The comparator as a relation: `a` may precede `b`. -/
def sourceLE (a b : Nat × DataSource) : Prop := sourceCompare a.2 b.2 ≤ 0

instance : DecidableRel sourceLE := fun a b => by
  unfold sourceLE; infer_instance

/-- `getSortedSources` on the enumerated source array: a stable sort of
`(index, source)` pairs by the comparator, matching the JS engine's
stable `Array.prototype.sort` on a copied array of references. -/
def sortedEnum (srcs : List DataSource) : List (Nat × DataSource) :=
  List.insertionSort sourceLE srcs.enum

/-- The order in which `fetchExploits` visits the configured sources:
element identity in the JS array is position, so the iteration order is
the index sequence of the sorted copy. -/
def sortedIndices (srcs : List DataSource) : List Nat :=
  (sortedEnum srcs).map Prod.fst

/-- Embedding of `isSourceHealthy`: returns the boolean and the (possibly
mutated) source — the unhealthy-but-timed-out branch optimistically
reinstates the source and resets its failure counter. -/
def isSourceHealthy (now : Nat) (s : DataSource) : Bool × DataSource :=
  if s.healthy then (true, s)
  else if now - s.lastCheck > CIRCUIT_BREAKER_TIMEOUT then
    (true, { s with healthy := true, failures := 0 })
  else (false, s)

/-- Embedding of `handleSourceFailure`: increment the failure counter,
stamp `lastCheck`, and open the breaker at the threshold. -/
def handleSourceFailure (now : Nat) (s : DataSource) : DataSource :=
  let s1 : DataSource := { s with failures := s.failures + 1, lastCheck := now }
  if s1.failures ≥ CIRCUIT_BREAKER_THRESHOLD then { s1 with healthy := false }
  else s1

/-- Outcome of one `fetchFromSource` attempt against source index `i`
(a resolved response or a thrown error with its message). -/
inductive WireResult where
  | ok (data : List Exploit)
  | fail (msg : String)

/-- The error `fetchExploits` ends in when no source returns data. -/
inductive FetchError where
  /-- The re-thrown raw error of the attempt whose source is the last
  element of the configured `DATA_SOURCES` array. -/
  | sourceError (msg : String)
  /-- The generic `new Error('All data sources unavailable')` thrown
  after the loop. -/
  | allSourcesUnavailable
deriving Repr, DecidableEq

/-- Result value of `fetchExploits`. -/
inductive FetchOutcome where
  | ok (data : List Exploit)
  | error (e : FetchError)
deriving Repr, DecidableEq

/-- Whether a fetch ended in a thrown error. -/
def FetchOutcome.isError : FetchOutcome → Bool
  | .ok _ => false
  | .error _ => true

/-- Result of one `fetchExploits` call: the returned/thrown value, the
`DATA_SOURCES` state afterwards, the response cache afterwards, and the
indices of the sources on which `fetchFromSource` was actually invoked,
in attempt order. -/
structure FetchResult where
  outcome : FetchOutcome
  sources : List DataSource
  cache : RespCache
  attempted : List Nat
deriving Repr, DecidableEq

/-- The `for (const source of this.getSortedSources())` loop body of
`fetchExploits`.  `lastIdx` is the index of
`DATA_SOURCES[DATA_SOURCES.length - 1]`, against which the identity
check in the catch block compares. -/
def fetchLoop (wire : Nat → WireResult) (now : Nat) (key : String)
    (lastIdx : Nat) :
    List Nat → List DataSource → RespCache → List Nat → FetchResult
  | [], srcs, cache, att => ⟨.error .allSourcesUnavailable, srcs, cache, att⟩
  | i :: rest, srcs, cache, att =>
    let s := srcs.getD i default
    match isSourceHealthy now s with
    | (false, s1) => fetchLoop wire now key lastIdx rest (srcs.set i s1) cache att
    | (true, s1) =>
      match wire i with
      | .ok data =>
        let s2 : DataSource := { s1 with healthy := true, failures := 0, lastCheck := now }
        ⟨.ok data, srcs.set i s2, assocSet cache key ⟨data, now⟩, att ++ [i]⟩
      | .fail msg =>
        let s2 := handleSourceFailure now s1
        if i = lastIdx then
          ⟨.error (.sourceError msg), srcs.set i s2, cache, att ++ [i]⟩
        else
          fetchLoop wire now key lastIdx rest (srcs.set i s2) cache (att ++ [i])

/-- The cache key `` `exploits:${protocol || 'all'}:${chain || 'all'}` ``. -/
def exploitsCacheKey (protocol chain : Option String) : String :=
  "exploits:" ++ protocol.getD "all" ++ ":" ++ chain.getD "all"

/-- Embedding of `DataService.fetchExploits`: response-cache consult
(fresh when `now - timestamp < CACHE_TTL`), then the failover loop over
the sorted source order. -/
def fetchExploits (wire : Nat → WireResult) (now : Nat)
    (srcs : List DataSource) (cache : RespCache)
    (protocol chain : Option String) : FetchResult :=
  let key := exploitsCacheKey protocol chain
  match assocGet cache key with
  | some e =>
    if now - e.timestamp < CACHE_TTL then ⟨.ok e.data, srcs, cache, []⟩
    else fetchLoop wire now key (srcs.length - 1) (sortedIndices srcs) srcs cache []
  | none =>
    fetchLoop wire now key (srcs.length - 1) (sortedIndices srcs) srcs cache []

/-- Embedding of `fetchKamiyoExploits` in `src/index.ts`: the same fetch
with every thrown error caught, logged and converted into `[]`. -/
def fetchKamiyoExploits (wire : Nat → WireResult) (now : Nat)
    (srcs : List DataSource) (cache : RespCache)
    (protocol chain : Option String) :
    List Exploit × List DataSource × RespCache :=
  match fetchExploits wire now srcs cache protocol chain with
  | ⟨.ok d, s, c, _⟩ => (d, s, c)
  | ⟨.error _, s, c, _⟩ => ([], s, c)

/-- `handleSourceFailure` applied once per failure time in the list, in
order (a run of consecutive failed attempts against one source). -/
def failureRun (times : List Nat) (s : DataSource) : DataSource :=
  match times with
  | [] => s
  | t :: ts => failureRun ts (handleSourceFailure t s)

/-- Fixture source for the failover scenarios: the better (lower)
priority healthy source. -/
def srcA : DataSource := ⟨"A", 1, true, 0, 0⟩

/-- Fixture source: the lower-preference healthy source. -/
def srcB : DataSource := ⟨"B", 2, true, 0, 0⟩

instance : IsTotal (Nat × DataSource) sourceLE := by
  constructor
  intro a b
  simp only [sourceLE, sourceCompare]
  cases ha : a.2.healthy <;> cases hb : b.2.healthy <;> simp [ha, hb] <;> omega

instance : IsTrans (Nat × DataSource) sourceLE := by
  constructor
  intro a b c hab hbc
  simp only [sourceLE, sourceCompare] at hab hbc ⊢
  cases ha : a.2.healthy <;> cases hb : b.2.healthy <;> cases hc : c.2.healthy <;>
    simp_all <;> omega

/-! ### Association-list lemmas -/

theorem assocGet_assocSet {β : Type} (c : List (String × β)) (k : String) (v : β) :
    assocGet (assocSet c k v) k = some v := by
  induction c with
  | nil => simp [assocSet, assocGet]
  | cons hd tl ih =>
    obtain ⟨k', w⟩ := hd
    by_cases h : k' = k <;> simp [assocSet, assocGet, h, ih]

theorem assocGet_assocUpdate {β : Type} (c : List (String × β)) (k : String)
    (f : β → β) : assocGet (assocUpdate c k f) k = (assocGet c k).map f := by
  induction c with
  | nil => simp [assocUpdate, assocGet]
  | cons hd tl ih =>
    obtain ⟨k', w⟩ := hd
    by_cases h : k' = k <;> simp [assocUpdate, assocGet, h, ih]

theorem assocGet_assocDelete {β : Type} (c : List (String × β)) (k : String) :
    assocGet (assocDelete c k) k = none := by
  induction c with
  | nil => simp [assocDelete, assocGet]
  | cons hd tl ih =>
    obtain ⟨k', w⟩ := hd
    by_cases h : k' = k <;> simp [assocDelete, assocGet, h, ih]

/-! ### `verifyPayment` and `admitRequest` lemmas -/

/-- A cached signature short-circuits `verifyPayment`: success without
any ledger lookup, whatever the payload claims. -/
theorem verifyPayment_hit (w : String) (ledger : String → TxLookup)
    (cache : PaymentCache) (pd : X402Payment)
    (h : (assocGet cache pd.payload.signature).isSome = true) :
    verifyPayment w ledger cache pd = (.success, 0) := by
  simp [verifyPayment, h]

/-- An uncached signature always costs exactly one ledger lookup. -/
theorem verifyPayment_miss_lookups (w : String) (ledger : String → TxLookup)
    (cache : PaymentCache) (pd : X402Payment)
    (h : assocGet cache pd.payload.signature = none) :
    (verifyPayment w ledger cache pd).2 = 1 := by
  simp only [verifyPayment, h, Option.isSome_none, Bool.false_eq_true, if_false]
  split
  · rfl
  · rfl
  · split
    · rfl
    · split_ifs <;> rfl

/-- On the cold path a payload recipient different from the configured
wallet always fails verification. -/
theorem verifyPayment_cold_bad_recipient (w : String) (ledger : String → TxLookup)
    (cache : PaymentCache) (pd : X402Payment)
    (hmiss : assocGet cache pd.payload.signature = none)
    (hrec : pd.payload.recipient ≠ w) :
    ∃ msg, verifyPayment w ledger cache pd = (.failure msg, 1) := by
  cases hl : ledger pd.payload.signature with
  | ioError m =>
    exact ⟨m, by simp [verifyPayment, hmiss, hl]⟩
  | notFound =>
    exact ⟨"Transaction not found or not confirmed", by simp [verifyPayment, hmiss, hl]⟩
  | found tx =>
    cases htx : tx.accountKeys.findIdx? (fun key => key = pd.payload.recipient) with
    | none =>
      exact ⟨"Payment recipient mismatch", by simp [verifyPayment, hmiss, hl, htx]⟩
    | some i =>
      exact ⟨"Invalid payment recipient", by simp [verifyPayment, hmiss, hl, htx, hrec]⟩

/-- Live cache hit: admitted immediately, reuse count bumped, no lookup. -/
theorem admit_cache_hit_live (w : String) (ledger : String → TxLookup)
    (now : Nat) (cache : PaymentCache) (pd : X402Payment) (e : PaymentProof)
    (hver : pd.x402Version = 1) (hnet : pd.network = "solana-mainnet")
    (hget : assocGet cache pd.payload.signature = some e)
    (hlive : now - e.timestamp ≤ ACCESS_WINDOW_MS) :
    admitRequest w ledger now cache (.payment pd) =
      ⟨.granted (grantResponse pd now),
       assocUpdate cache pd.payload.signature
         (fun pr => { pr with requestCount := pr.requestCount + 1 }), 0⟩ := by
  have hv : verifyPayment w ledger cache pd = (.success, 0) :=
    verifyPayment_hit w ledger cache pd (by rw [hget]; rfl)
  have hnot : ¬ now - e.timestamp > ACCESS_WINDOW_MS := by omega
  simp [admitRequest, hver, hnet, hv, hget, hnot]

/-- Expired cache hit: the entry is deleted and the payment-required
challenge is returned, with no fresh ledger verification. -/
theorem admit_cache_hit_expired (w : String) (ledger : String → TxLookup)
    (now : Nat) (cache : PaymentCache) (pd : X402Payment) (e : PaymentProof)
    (hver : pd.x402Version = 1) (hnet : pd.network = "solana-mainnet")
    (hget : assocGet cache pd.payload.signature = some e)
    (hexp : now - e.timestamp > ACCESS_WINDOW_MS) :
    admitRequest w ledger now cache (.payment pd) =
      ⟨.paymentRequired, assocDelete cache pd.payload.signature, 0⟩ := by
  have hv : verifyPayment w ledger cache pd = (.success, 0) :=
    verifyPayment_hit w ledger cache pd (by rw [hget]; rfl)
  simp [admitRequest, hver, hnet, hv, hget, hexp]

/-- Cold path with a successful verification: grant, create the cache
entry with reuse count 1, one ledger lookup. -/
theorem admit_cold_success (w : String) (ledger : String → TxLookup)
    (now : Nat) (cache : PaymentCache) (pd : X402Payment)
    (hver : pd.x402Version = 1) (hnet : pd.network = "solana-mainnet")
    (hmiss : assocGet cache pd.payload.signature = none)
    (hok : (verifyPayment w ledger cache pd).1 = .success) :
    admitRequest w ledger now cache (.payment pd) =
      ⟨.granted (grantResponse pd now),
       assocSet cache pd.payload.signature
         ⟨pd.payload.signature, pd.payload.amount, now, 1⟩, 1⟩ := by
  have hv : verifyPayment w ledger cache pd = (.success, 1) := by
    have h2 := verifyPayment_miss_lookups w ledger cache pd hmiss
    exact Prod.ext hok h2
  simp [admitRequest, hver, hnet, hv, hmiss]

/-- Repeated calls against a live single-entry cache: every call is
granted with a receipt whose `expiresAt` is recomputed from that call's
clock, and the entry's reuse count grows by exactly one per call while
its `first_seen_at` timestamp stays fixed. -/
theorem admitTimes_cached (w : String) (ledger : String → TxLookup)
    (pd : X402Payment) (a : Int) (t0 : Nat) (k : Nat) (ts : List Nat)
    (hver : pd.x402Version = 1) (hnet : pd.network = "solana-mainnet")
    (hts : ∀ t ∈ ts, t - t0 ≤ ACCESS_WINDOW_MS) :
    admitTimes w ledger pd ts
        [(pd.payload.signature, ⟨pd.payload.signature, a, t0, k⟩)] =
      (ts.map (fun t => .granted (grantResponse pd t)),
       [(pd.payload.signature, ⟨pd.payload.signature, a, t0, k + ts.length⟩)]) := by
  induction ts generalizing k with
  | nil => simp [admitTimes]
  | cons t ts ih =>
    have hstep := admit_cache_hit_live w ledger t
      [(pd.payload.signature, ⟨pd.payload.signature, a, t0, k⟩)] pd
      ⟨pd.payload.signature, a, t0, k⟩ hver hnet (by simp [assocGet])
      (hts t (by simp))
    have hrest := ih (k + 1) (fun t' ht' => hts t' (by simp [ht']))
    simp only [admitTimes, hstep, assocUpdate, if_pos rfl, if_true]
    rw [hrest]
    have hk : k + 1 + ts.length = k + (ts.length + 1) := by omega
    simp [hk]

/-! ### Claim C1 -/

/-- C1 counterexample: after an earlier admitRequest with the same signature,
a payload whose recipient `"X"` differs from the configured destination
`"W"` is nevertheless admitted — `verifyPayment` short-circuits on the
cached signature before any recipient check — so the claim's "holds for
every call, including calls made after some earlier admitRequest() with the
same proof_id" is false on the code. -/
theorem C1_cached_signature_bypasses_recipient_check :
    demoForgedPayment.payload.recipient ≠ "W" ∧
    (admitRequest "W" demoLedger 1
        (admitRequest "W" demoLedger 0 [] (.payment demoPayment)).cache
        (.payment demoForgedPayment)).outcome =
      .granted (grantResponse demoForgedPayment 1) := by
  exact ⟨by decide, rfl⟩

/-- C1 (amended): whenever the proof's signature is NOT already a live
or stale entry of the payment cache (the cold path), a payload recipient
different from the configured payment destination is rejected with a 402
error regardless of every amount and of the ledger's answer, and the
cache is left unchanged, so no `ProofCacheEntry` is created.  (When the
signature is cached, the recipient is not re-checked and the request is
admitted from the cache — hence the restriction to the cold path.) -/
theorem C1_cold_path_recipient_mismatch_rejected
    (w : String) (ledger : String → TxLookup) (now : Nat)
    (cache : PaymentCache) (pd : X402Payment)
    (hver : pd.x402Version = 1) (hnet : pd.network = "solana-mainnet")
    (hrec : pd.payload.recipient ≠ w)
    (hmiss : assocGet cache pd.payload.signature = none) :
    (admitRequest w ledger now cache (.payment pd)).outcome.isRejected402 = true ∧
    (admitRequest w ledger now cache (.payment pd)).cache = cache := by
  obtain ⟨msg, hv⟩ := verifyPayment_cold_bad_recipient w ledger cache pd hmiss hrec
  constructor <;> simp [admitRequest, hver, hnet, hv, AdmitOutcome.isRejected402]

/-- Witness for C1's amended theorem at a concrete input. -/
theorem C1_cold_path_recipient_mismatch_rejected_witness :
    (admitRequest "W" demoLedger 0 [] (.payment demoForgedPayment)).outcome.isRejected402 = true ∧
    (admitRequest "W" demoLedger 0 [] (.payment demoForgedPayment)).cache = [] :=
  C1_cold_path_recipient_mismatch_rejected "W" demoLedger 0 [] demoForgedPayment
    rfl rfl (by decide) rfl

/-! ### Claim C2 -/

/-- C2 counterexample: with an expired entry for `"sig1"` and a ledger
on which a fresh verification would succeed, the call at `t = 3600001`
returns the payment-required challenge with zero ledger lookups; the
same call with the entry absent is granted after one ledger lookup.  So
an expired proof_id does NOT behave like a never-seen one, and the
expired entry IS used to short-circuit to a rejection. -/
theorem C2_expired_entry_shortcircuits_to_challenge :
    admitRequest "W" demoLedger 3600001 [("sig1", ⟨"sig1", 1000000, 0, 1⟩)]
        (.payment demoPayment) = ⟨.paymentRequired, [], 0⟩ ∧
    admitRequest "W" demoLedger 3600001 [] (.payment demoPayment) =
      ⟨.granted (grantResponse demoPayment 3600001),
       [("sig1", ⟨"sig1", 1000000, 3600001, 1⟩)], 1⟩ := by
  exact ⟨rfl, rfl⟩

/-- C2 (amended): a request whose proof_id has an expired cache entry is
answered with the payment-required challenge after deleting the entry,
with no ledger verification at all on that call (the stale entry still
short-circuits `verifyPayment` to success); only the next call with
that proof_id takes the cold path. -/
theorem C2_expired_entry_deleted_and_challenged
    (w : String) (ledger : String → TxLookup) (now : Nat)
    (cache : PaymentCache) (pd : X402Payment) (e : PaymentProof)
    (hver : pd.x402Version = 1) (hnet : pd.network = "solana-mainnet")
    (hget : assocGet cache pd.payload.signature = some e)
    (hexp : now - e.timestamp > ACCESS_WINDOW_MS) :
    admitRequest w ledger now cache (.payment pd) =
      ⟨.paymentRequired, assocDelete cache pd.payload.signature, 0⟩ :=
  admit_cache_hit_expired w ledger now cache pd e hver hnet hget hexp

/-- Witness for C2's amended theorem at a concrete input. -/
theorem C2_expired_entry_deleted_and_challenged_witness :
    admitRequest "W" demoLedger 3600001 [("sig1", ⟨"sig1", 1000000, 0, 1⟩)]
        (.payment demoPayment) =
      ⟨.paymentRequired, assocDelete [("sig1", ⟨"sig1", 1000000, 0, 1⟩)] "sig1", 0⟩ :=
  C2_expired_entry_deleted_and_challenged "W" demoLedger 3600001
    [("sig1", ⟨"sig1", 1000000, 0, 1⟩)] demoPayment ⟨"sig1", 1000000, 0, 1⟩
    rfl rfl (by decide) (by decide)

/-! ### Claim C3 -/

/-- C3 counterexample: a thrown ledger I/O error ("network timeout") is
surfaced by `admitRequest` as `sendX402Error(msg, 402)` — the very same
constructor and 402 status used for the payment-invalid rejection
(`notFound` shown alongside).  No distinct
`VerificationUnavailable` error exists in the code. -/
theorem C3_io_error_surfaced_as_402 :
    admitRequest "W" (fun _ => .ioError "network timeout") 0 [] (.payment demoPayment) =
      ⟨.errorResponse "network timeout" 402, [], 1⟩ ∧
    admitRequest "W" (fun _ => .notFound) 0 [] (.payment demoPayment) =
      ⟨.errorResponse "Transaction not found or not confirmed" 402, [], 1⟩ ∧
    (AdmitOutcome.errorResponse "network timeout" 402).isRejected402 = true ∧
    (AdmitOutcome.errorResponse "Transaction not found or not confirmed" 402).isRejected402 = true := by
  exact ⟨rfl, rfl, rfl, rfl⟩

/-- C3 (amended): a ledger I/O failure (network error/timeout thrown by
the transaction lookup) makes `verifyPayment` return failure with the
exception's message, and `admitRequest` surfaces it as a 402 error — the same
shape as every payment-invalid rejection, NOT a distinct
`VerificationUnavailable`; however nothing is cached, so the caller can
retry the same proof. -/
theorem C3_io_error_rejected_402_no_cache
    (w : String) (ledger : String → TxLookup) (now : Nat)
    (cache : PaymentCache) (pd : X402Payment) (msg : String)
    (hver : pd.x402Version = 1) (hnet : pd.network = "solana-mainnet")
    (hmiss : assocGet cache pd.payload.signature = none)
    (hio : ledger pd.payload.signature = .ioError msg) :
    admitRequest w ledger now cache (.payment pd) =
      ⟨.errorResponse msg 402, cache, 1⟩ := by
  have hv : verifyPayment w ledger cache pd = (.failure msg, 1) := by
    simp [verifyPayment, hmiss, hio]
  simp [admitRequest, hver, hnet, hv]

/-- Witness for C3's amended theorem at a concrete input. -/
theorem C3_io_error_rejected_402_no_cache_witness :
    admitRequest "W" (fun _ => .ioError "network timeout") 5 [] (.payment demoPayment) =
      ⟨.errorResponse "network timeout" 402, [], 1⟩ :=
  C3_io_error_rejected_402_no_cache "W" (fun _ => .ioError "network timeout") 5 []
    demoPayment "network timeout" rfl rfl rfl rfl

/-! ### Claim C5 -/

/-- C5: for a valid, never-seen proof the first `admitRequest` performs exactly
one ledger lookup, creates the entry with reuse count 1, and grants; a
second `admitRequest` with the same proof strictly within the access window
performs zero lookups, grants immediately from the cache, and increments
the entry's reuse count from 1 to 2. -/
theorem C5_first_verify_then_cache_hit
    (w : String) (ledger : String → TxLookup) (pd : X402Payment)
    (t1 t2 : Nat) (cache : PaymentCache)
    (hver : pd.x402Version = 1) (hnet : pd.network = "solana-mainnet")
    (hmiss : assocGet cache pd.payload.signature = none)
    (hok : (verifyPayment w ledger cache pd).1 = .success)
    (hwin : t2 - t1 < ACCESS_WINDOW_MS) :
    (admitRequest w ledger t1 cache (.payment pd)).ledgerLookups = 1 ∧
    (admitRequest w ledger t1 cache (.payment pd)).outcome =
      .granted (grantResponse pd t1) ∧
    assocGet (admitRequest w ledger t1 cache (.payment pd)).cache pd.payload.signature =
      some ⟨pd.payload.signature, pd.payload.amount, t1, 1⟩ ∧
    (admitRequest w ledger t2 (admitRequest w ledger t1 cache (.payment pd)).cache
        (.payment pd)).ledgerLookups = 0 ∧
    (admitRequest w ledger t2 (admitRequest w ledger t1 cache (.payment pd)).cache
        (.payment pd)).outcome = .granted (grantResponse pd t2) ∧
    assocGet (admitRequest w ledger t2 (admitRequest w ledger t1 cache (.payment pd)).cache
        (.payment pd)).cache pd.payload.signature =
      some ⟨pd.payload.signature, pd.payload.amount, t1, 2⟩ := by
  have h1 := admit_cold_success w ledger t1 cache pd hver hnet hmiss hok
  have hget1 : assocGet (admitRequest w ledger t1 cache (.payment pd)).cache
      pd.payload.signature =
      some ⟨pd.payload.signature, pd.payload.amount, t1, 1⟩ := by
    rw [h1]; exact assocGet_assocSet cache _ _
  have h2 := admit_cache_hit_live w ledger t2
    (admitRequest w ledger t1 cache (.payment pd)).cache pd
    ⟨pd.payload.signature, pd.payload.amount, t1, 1⟩ hver hnet hget1
    (le_of_lt hwin)
  refine ⟨by rw [h1], by rw [h1], hget1, by rw [h2], by rw [h2], ?_⟩
  rw [h2]
  simp only []
  rw [assocGet_assocUpdate, hget1]
  rfl

/-- Witness for C5's theorem at a concrete input. -/
theorem C5_first_verify_then_cache_hit_witness :
    (admitRequest "W" demoLedger 0 [] (.payment demoPayment)).ledgerLookups = 1 ∧
    (admitRequest "W" demoLedger 0 [] (.payment demoPayment)).outcome =
      .granted (grantResponse demoPayment 0) ∧
    assocGet (admitRequest "W" demoLedger 0 [] (.payment demoPayment)).cache "sig1" =
      some ⟨"sig1", 1000000, 0, 1⟩ ∧
    (admitRequest "W" demoLedger 10 (admitRequest "W" demoLedger 0 [] (.payment demoPayment)).cache
        (.payment demoPayment)).ledgerLookups = 0 ∧
    (admitRequest "W" demoLedger 10 (admitRequest "W" demoLedger 0 [] (.payment demoPayment)).cache
        (.payment demoPayment)).outcome = .granted (grantResponse demoPayment 10) ∧
    assocGet (admitRequest "W" demoLedger 10 (admitRequest "W" demoLedger 0 [] (.payment demoPayment)).cache
        (.payment demoPayment)).cache "sig1" =
      some ⟨"sig1", 1000000, 0, 2⟩ :=
  C5_first_verify_then_cache_hit "W" demoLedger demoPayment 0 10 []
    rfl rfl rfl rfl (by decide)

/-! ### Claim C6 -/

/-- C6 counterexample: two admits of the same still-valid proof at times
0 and 1 both grant, but their receipts report `expiresAt` 3600000 and
3600001 — the expiry is recomputed per call from `Date.now()`, not fixed
at first verification, so the grants' `expires_at` values are not
identical. -/
theorem C6_expiresAt_not_identical :
    (admitTimes "W" demoLedger demoPayment [0, 1] []).1.map
        AdmitOutcome.expiresAt? = [some 3600000, some 3600001] ∧
    (3600000 : Nat) ≠ 3600001 := by
  exact ⟨rfl, by decide⟩

/-- C6 (amended): calling `admitRequest` N times with the same still-valid
proof yields N grants; the cache entry's reuse count increases by
exactly one per call (so it is strictly increasing across the calls) and
its first-seen timestamp stays fixed, but each grant's receipt reports
`expiresAt` = that call's time + window, recomputed per call — identical
across the N grants only when the calls share a timestamp. -/
theorem C6_repeated_admits_monotone_counts
    (w : String) (ledger : String → TxLookup) (pd : X402Payment)
    (a : Int) (t0 : Nat) (k : Nat) (ts : List Nat)
    (hver : pd.x402Version = 1) (hnet : pd.network = "solana-mainnet")
    (hts : ∀ t ∈ ts, t - t0 ≤ ACCESS_WINDOW_MS) :
    admitTimes w ledger pd ts
        [(pd.payload.signature, ⟨pd.payload.signature, a, t0, k⟩)] =
      (ts.map (fun t => .granted (grantResponse pd t)),
       [(pd.payload.signature, ⟨pd.payload.signature, a, t0, k + ts.length⟩)]) :=
  admitTimes_cached w ledger pd a t0 k ts hver hnet hts

/-- Witness for C6's amended theorem at a concrete input. -/
theorem C6_repeated_admits_monotone_counts_witness :
    admitTimes "W" demoLedger demoPayment [5, 10]
        [("sig1", ⟨"sig1", 1000000, 0, 1⟩)] =
      ([.granted (grantResponse demoPayment 5),
        .granted (grantResponse demoPayment 10)],
       [("sig1", ⟨"sig1", 1000000, 0, 3⟩)]) :=
  C6_repeated_admits_monotone_counts "W" demoLedger demoPayment 1000000 0 1
    [5, 10] rfl rfl (by decide)

/-! ### Data-service lemmas -/

/-- If every source attempt fails, the failover loop always ends in a
thrown error (the raw last error or the generic exhaustion error) —
never in data. -/
theorem fetchLoop_all_fail (wire : Nat → WireResult) (now : Nat)
    (key : String) (lastIdx : Nat)
    (hfail : ∀ i, ∃ m, wire i = .fail m) :
    ∀ (order : List Nat) (srcs : List DataSource) (cache : RespCache)
      (att : List Nat),
      (fetchLoop wire now key lastIdx order srcs cache att).outcome.isError = true := by
  intro order
  induction order with
  | nil => intro srcs cache att; rfl
  | cons i rest ih =>
    intro srcs cache att
    obtain ⟨m, hm⟩ := hfail i
    rcases hh : isSourceHealthy now (srcs.getD i default) with ⟨b, s1⟩
    cases b with
    | false => simp only [fetchLoop, hh]; exact ih _ _ _
    | true =>
      simp only [fetchLoop, hh, hm]
      split_ifs with hlast
      · rfl
      · exact ih _ _ _

/-- The failover loop reads the response cache nowhere: its outcome,
source state and attempted indices do not depend on the cache passed in. -/
theorem fetchLoop_cache_irrelevant (wire : Nat → WireResult) (now : Nat)
    (key : String) (lastIdx : Nat) :
    ∀ (order : List Nat) (srcs : List DataSource)
      (cache cache' : RespCache) (att : List Nat),
      (fetchLoop wire now key lastIdx order srcs cache att).outcome =
        (fetchLoop wire now key lastIdx order srcs cache' att).outcome ∧
      (fetchLoop wire now key lastIdx order srcs cache att).sources =
        (fetchLoop wire now key lastIdx order srcs cache' att).sources ∧
      (fetchLoop wire now key lastIdx order srcs cache att).attempted =
        (fetchLoop wire now key lastIdx order srcs cache' att).attempted := by
  intro order
  induction order with
  | nil => intro srcs cache cache' att; exact ⟨rfl, rfl, rfl⟩
  | cons i rest ih =>
    intro srcs cache cache' att
    rcases hh : isSourceHealthy now (srcs.getD i default) with ⟨b, s1⟩
    cases b with
    | false => simp only [fetchLoop, hh]; exact ih _ _ _ _
    | true =>
      cases hw : wire i with
      | ok d => simp only [fetchLoop, hh, hw]; trivial
      | fail m =>
        simp only [fetchLoop, hh, hw]
        split_ifs with hlast
        · trivial
        · exact ih _ _ _ _

/-! ### Claim C4 -/

/-- C4 counterexample: with the single configured source failing, the
route-level caller `fetchKamiyoExploits` converts the total failure into
an empty result, and the error `fetchExploits` throws is the raw
underlying error, not an `AllSourcesExhausted` wrapper; moreover with
configured order `[srcB, srcA]` and both failing, the attempt on `srcA`
(the last element of the configured array) aborts the loop so the
attemptable healthy source at index 0 is never attempted. -/
theorem C4_all_sources_fail_empty_result :
    (fetchKamiyoExploits (fun _ => .fail "Network error") 1000
        [⟨"kamiyo_primary", 1, true, 0, 0⟩] [] none none).1 = [] ∧
    (fetchExploits (fun _ => .fail "Network error") 1000
        [⟨"kamiyo_primary", 1, true, 0, 0⟩] [] none none).outcome =
      .error (.sourceError "Network error") ∧
    (fetchExploits (fun _ => .fail "down") 1000 [srcB, srcA] [] none none).attempted
      = [1] := by
  exact ⟨rfl, rfl, rfl⟩

/-- C4 (amended): when every configured source's fetch fails and there
is no fresh cache entry, `DataService.fetchExploits` does end in a
thrown error — but that error is the raw last error when the failing
source is the last-configured one (sources sorted after it are then
never attempted) or the generic exhaustion error, with no
`AllSourcesExhausted` wrapping — and the route-level caller
`fetchKamiyoExploits` swallows it into an empty result instead of
surfacing it. -/
theorem C4_all_fail_error_then_swallowed
    (wire : Nat → WireResult) (now : Nat) (srcs : List DataSource)
    (cache : RespCache) (protocol chain : Option String)
    (hfail : ∀ i, ∃ m, wire i = .fail m)
    (hmiss : assocGet cache (exploitsCacheKey protocol chain) = none) :
    (fetchExploits wire now srcs cache protocol chain).outcome.isError = true ∧
    (fetchKamiyoExploits wire now srcs cache protocol chain).1 = [] := by
  have herr : (fetchExploits wire now srcs cache protocol chain).outcome.isError = true := by
    simp only [fetchExploits, hmiss]
    exact fetchLoop_all_fail wire now _ _ hfail _ _ _ _
  refine ⟨herr, ?_⟩
  unfold fetchKamiyoExploits
  rcases hr : fetchExploits wire now srcs cache protocol chain with ⟨outcome, s, c, att⟩
  cases outcome with
  | ok d => rw [hr] at herr; simp [FetchOutcome.isError] at herr
  | error e => rfl

/-- Witness for C4's amended theorem at a concrete input. -/
theorem C4_all_fail_error_then_swallowed_witness :
    (fetchExploits (fun _ => .fail "Network error") 1000
        [⟨"kamiyo_primary", 1, true, 0, 0⟩] [] none none).outcome.isError = true ∧
    (fetchKamiyoExploits (fun _ => .fail "Network error") 1000
        [⟨"kamiyo_primary", 1, true, 0, 0⟩] [] none none).1 = [] :=
  C4_all_fail_error_then_swallowed (fun _ => .fail "Network error") 1000
    [⟨"kamiyo_primary", 1, true, 0, 0⟩] [] none none
    (fun _ => ⟨"Network error", rfl⟩) rfl

/-! ### Claim C7 -/

/-- The JS comparator accepts `a` before `b` exactly when `a` is healthy
and `b` is not, or both have the same health and `a`'s priority is not
larger. -/
theorem sourceCompare_nonpos (a b : DataSource) :
    sourceCompare a b ≤ 0 ↔
      (a.healthy = true ∧ b.healthy = false) ∨
      (a.healthy = b.healthy ∧ a.priority ≤ b.priority) := by
  unfold sourceCompare
  cases ha : a.healthy <;> cases hb : b.healthy <;> simp [ha, hb]

/-- C7 counterexample: sources A(priority 1, healthy) and B(priority 2,
healthy) configured in the order `[B, A]`: A is sorted first and fails,
but because A is the last element of the configured `DATA_SOURCES` array
the loop re-throws immediately — B (index 0) is never attempted and its
data is not returned, so the claimed outcome does not hold "for every
ordering of A and B in the configured source list". -/
theorem C7_last_configured_source_aborts_failover :
    (fetchExploits (fun i => if i = 1 then .fail "A down" else .ok [⟨"uni", 5⟩])
        1000 [srcB, srcA] [] none none).outcome =
      .error (.sourceError "A down") ∧
    (fetchExploits (fun i => if i = 1 then .fail "A down" else .ok [⟨"uni", 5⟩])
        1000 [srcB, srcA] [] none none).attempted = [1] ∧
    sortedIndices [srcB, srcA] = [1, 0] := by
  exact ⟨rfl, rfl, rfl⟩

/-- C7 (amended): `getSortedSources` does order the sources by (healthy
descending, priority ascending) — the sorted enumeration is sorted under
the comparator relation for every source list; and the two-source
failover scenario holds for the configured ordering `[A, B]` (A before
B): if A(priority < B's, healthy) fails and B(healthy) succeeds, the
fetch returns B's data with A's consecutive-failure count 1 and B's 0.
For the configured ordering `[B, A]` the counterexample applies: A's
failure is re-thrown as the last configured source and B is never
attempted. -/
theorem C7_failover_order_and_outcome :
    (∀ srcs : List DataSource, (sortedEnum srcs).Sorted sourceLE) ∧
    (∀ (nA nB : String) (pA pB : Int) (tA tB now : Nat) (d : List Exploit)
       (m : String) (wire : Nat → WireResult) (cache : RespCache)
       (protocol chain : Option String),
      pA < pB →
      wire 0 = .fail m →
      wire 1 = .ok d →
      assocGet cache (exploitsCacheKey protocol chain) = none →
      fetchExploits wire now [⟨nA, pA, true, 0, tA⟩, ⟨nB, pB, true, 0, tB⟩]
          cache protocol chain =
        ⟨.ok d,
         [⟨nA, pA, true, 1, now⟩, ⟨nB, pB, true, 0, now⟩],
         assocSet cache (exploitsCacheKey protocol chain) ⟨d, now⟩,
         [0, 1]⟩) := by
  constructor
  · intro srcs
    exact List.sorted_insertionSort sourceLE srcs.enum
  · intro nA nB pA pB tA tB now d m wire cache protocol chain hp hw0 hw1 hmiss
    have hle : sourceLE (0, ⟨nA, pA, true, 0, tA⟩) (1, ⟨nB, pB, true, 0, tB⟩) := by
      rw [sourceLE, sourceCompare_nonpos]
      right
      exact ⟨rfl, le_of_lt hp⟩
    have hsort : sortedIndices [⟨nA, pA, true, 0, tA⟩, ⟨nB, pB, true, 0, tB⟩] = [0, 1] := by
      unfold sortedIndices sortedEnum
      rw [show List.enum [(⟨nA, pA, true, 0, tA⟩ : DataSource), ⟨nB, pB, true, 0, tB⟩] =
            [(0, ⟨nA, pA, true, 0, tA⟩), (1, ⟨nB, pB, true, 0, tB⟩)] from rfl]
      rw [List.insertionSort, List.insertionSort, List.insertionSort,
          List.orderedInsert, List.orderedInsert, if_pos hle]
      rfl
    simp only [fetchExploits, hmiss, hsort]
    simp only [fetchLoop, List.getD_cons_zero, List.getD_cons_succ,
               isSourceHealthy, if_pos rfl, hw0, hw1]
    norm_num [handleSourceFailure, CIRCUIT_BREAKER_THRESHOLD, List.set]

/-- Witness for C7's amended theorem at a concrete input. -/
theorem C7_failover_order_and_outcome_witness :
    fetchExploits (fun i => if i = 0 then .fail "A down" else .ok [⟨"uni", 5⟩])
        1000 [⟨"A", 1, true, 0, 0⟩, ⟨"B", 2, true, 0, 0⟩] [] none none =
      ⟨.ok [⟨"uni", 5⟩],
       [⟨"A", 1, true, 1, 1000⟩, ⟨"B", 2, true, 0, 1000⟩],
       assocSet [] (exploitsCacheKey none none) ⟨[⟨"uni", 5⟩], 1000⟩,
       [0, 1]⟩ :=
  C7_failover_order_and_outcome.2 "A" "B" 1 2 0 0 1000 [⟨"uni", 5⟩] "A down"
    (fun i => if i = 0 then .fail "A down" else .ok [⟨"uni", 5⟩]) [] none none
    (by omega) rfl rfl rfl

/-! ### Claim C8 -/

/-- C8 counterexample: at the moment exactly `breaker_timeout` has
elapsed since the breaker opened (`now - lastCheck = 60000`), the source
is still skipped, not optimistically reinstated — the code requires
strictly more than the timeout. -/
theorem C8_exact_timeout_not_reinstated :
    (60000 : Nat) - 0 = CIRCUIT_BREAKER_TIMEOUT ∧
    isSourceHealthy 60000 ⟨"A", 1, false, 5, 0⟩ =
      (false, ⟨"A", 1, false, 5, 0⟩) := by
  exact ⟨rfl, rfl⟩

/-- C8 (amended): the 5th consecutive failure opens the breaker
(healthy := false) and records the state-change time; an attempt at most
`breaker_timeout` after the state change (including exactly at the
timeout) skips the source, and an attempt strictly more than
`breaker_timeout` after it optimistically reinstates the source; and
`handleSourceFailure` sets healthy=false only when the failure counter
has reached the threshold. -/
theorem C8_circuit_breaker_behavior :
    (∀ (s : DataSource) (now : Nat), s.failures = 4 →
       handleSourceFailure now s =
         { s with failures := 5, lastCheck := now, healthy := false }) ∧
    (∀ (s : DataSource) (t : Nat), s.healthy = false →
       t - s.lastCheck ≤ CIRCUIT_BREAKER_TIMEOUT →
       isSourceHealthy t s = (false, s)) ∧
    (∀ (s : DataSource) (t : Nat), s.healthy = false →
       CIRCUIT_BREAKER_TIMEOUT < t - s.lastCheck →
       isSourceHealthy t s = (true, { s with healthy := true, failures := 0 })) ∧
    (∀ (s : DataSource) (now : Nat), (handleSourceFailure now s).healthy = false →
       s.healthy = false ∨
       CIRCUIT_BREAKER_THRESHOLD ≤ (handleSourceFailure now s).failures) := by
  refine ⟨?_, ?_, ?_, ?_⟩
  · intro s now h
    simp [handleSourceFailure, h, CIRCUIT_BREAKER_THRESHOLD]
  · intro s t h hle
    have hnot : ¬ (t - s.lastCheck > CIRCUIT_BREAKER_TIMEOUT) := by omega
    simp [isSourceHealthy, h, hnot]
  · intro s t h hgt
    simp [isSourceHealthy, h, hgt]
  · intro s now h
    by_cases hth : s.failures + 1 ≥ CIRCUIT_BREAKER_THRESHOLD
    · right
      simp [handleSourceFailure, hth]
    · left
      simp [handleSourceFailure, hth] at h
      exact h

/-- Witness for C8's amended theorem at concrete inputs. -/
theorem C8_circuit_breaker_behavior_witness :
    handleSourceFailure 7 ⟨"A", 1, true, 4, 0⟩ = ⟨"A", 1, false, 5, 7⟩ ∧
    isSourceHealthy 100 ⟨"A", 1, false, 5, 50⟩ = (false, ⟨"A", 1, false, 5, 50⟩) ∧
    isSourceHealthy 60051 ⟨"A", 1, false, 5, 50⟩ = (true, ⟨"A", 1, true, 0, 50⟩) :=
  ⟨C8_circuit_breaker_behavior.1 ⟨"A", 1, true, 4, 0⟩ 7 rfl,
   C8_circuit_breaker_behavior.2.1 ⟨"A", 1, false, 5, 50⟩ 100 rfl (by decide),
   C8_circuit_breaker_behavior.2.2.1 ⟨"A", 1, false, 5, 50⟩ 60051 rfl (by decide)⟩

/-! ### Claim C10 -/

/-- Invariant of repeated `handleSourceFailure` from a clean source:
after `k` consecutive failures the counter is exactly `k` and the source
is healthy exactly while `k` is below the threshold. -/
theorem failureRun_spec (ts : List Nat) :
    ∀ (s : DataSource) (n : Nat), s.failures = n →
      s.healthy = decide (n < CIRCUIT_BREAKER_THRESHOLD) →
      (failureRun ts s).failures = n + ts.length ∧
      (failureRun ts s).healthy =
        decide (n + ts.length < CIRCUIT_BREAKER_THRESHOLD) := by
  induction ts with
  | nil =>
    intro s n h1 h2
    simpa [failureRun] using ⟨h1, h2⟩
  | cons t ts ih =>
    intro s n h1 h2
    have hstep1 : (handleSourceFailure t s).failures = n + 1 := by
      simp only [handleSourceFailure]
      split_ifs <;> simp [h1]
    have hstep2 : (handleSourceFailure t s).healthy =
        decide (n + 1 < CIRCUIT_BREAKER_THRESHOLD) := by
      by_cases hth : s.failures + 1 ≥ CIRCUIT_BREAKER_THRESHOLD
      · rw [h1] at hth
        have : ¬ (n + 1 < CIRCUIT_BREAKER_THRESHOLD) := by omega
        simp [handleSourceFailure, h1, hth, this]
      · rw [h1] at hth
        have h5 : n + 1 < CIRCUIT_BREAKER_THRESHOLD := by omega
        have h4 : n < CIRCUIT_BREAKER_THRESHOLD := by omega
        simp [handleSourceFailure, h1, hth, h2, h4, h5]
    have := ih (handleSourceFailure t s) (n + 1) hstep1 hstep2
    refine ⟨?_, ?_⟩
    · rw [failureRun, this.1, List.length_cons]; omega
    · rw [failureRun, this.2]
      have : n + 1 + ts.length = n + (ts.length + 1) := by omega
      rw [this]
      rfl

/-- C10: reinstating an unhealthy source after the breaker timeout
resets its failure counter to 0 before any fetch is attempted — so a
still-broken single source that is reinstated and immediately fails ends
the fetch with `consecutive_failures = 1` (not `old + 1`), and from a
fresh (reinstated) state a source must fail the full threshold of 5
further times before `healthy` becomes false again. -/
theorem C10_reinstate_resets_failures :
    (∀ (s : DataSource) (t : Nat), s.healthy = false →
       CIRCUIT_BREAKER_TIMEOUT < t - s.lastCheck →
       isSourceHealthy t s = (true, { s with healthy := true, failures := 0 }) ∧
       (isSourceHealthy t s).2.failures = 0) ∧
    (∀ (ts : List Nat) (s : DataSource), s.failures = 0 → s.healthy = true →
       (failureRun ts s).failures = ts.length ∧
       ((failureRun ts s).healthy = true ↔
         ts.length < CIRCUIT_BREAKER_THRESHOLD)) ∧
    (∀ (nm : String) (p : Int) (f last now : Nat) (m : String)
       (wire : Nat → WireResult) (cache : RespCache)
       (protocol chain : Option String),
      CIRCUIT_BREAKER_TIMEOUT < now - last →
      wire 0 = .fail m →
      assocGet cache (exploitsCacheKey protocol chain) = none →
      (fetchExploits wire now [⟨nm, p, false, f, last⟩] cache protocol chain).sources =
        [⟨nm, p, true, 1, now⟩]) := by
  refine ⟨?_, ?_, ?_⟩
  · intro s t h hgt
    have he : isSourceHealthy t s = (true, { s with healthy := true, failures := 0 }) := by
      simp [isSourceHealthy, h, hgt]
    exact ⟨he, by rw [he]⟩
  · intro ts s h1 h2
    have := failureRun_spec ts s 0 h1 (by simp [h2, CIRCUIT_BREAKER_THRESHOLD])
    refine ⟨by simpa using this.1, ?_⟩
    rw [this.2]
    simp
  · intro nm p f last now m wire cache protocol chain hgt hw0 hmiss
    have hh : isSourceHealthy now (⟨nm, p, false, f, last⟩ : DataSource) =
        (true, ⟨nm, p, true, 0, last⟩) := by
      simp [isSourceHealthy, hgt]
    simp only [fetchExploits, hmiss]
    rw [show sortedIndices [(⟨nm, p, false, f, last⟩ : DataSource)] =
          [0] from rfl]
    simp only [fetchLoop, List.getD_cons_zero, hh, hw0]
    norm_num [handleSourceFailure, CIRCUIT_BREAKER_THRESHOLD]

/-- Witness for C10's theorem at concrete inputs. -/
theorem C10_reinstate_resets_failures_witness :
    isSourceHealthy 70000 ⟨"A", 1, false, 5, 0⟩ = (true, ⟨"A", 1, true, 0, 0⟩) ∧
    (failureRun [1, 2, 3, 4] ⟨"A", 1, true, 0, 0⟩).healthy = true ∧
    (failureRun [1, 2, 3, 4, 5] ⟨"A", 1, true, 0, 0⟩).healthy = false ∧
    (fetchExploits (fun _ => .fail "still down") 70000
        [⟨"A", 1, false, 5, 0⟩] [] none none).sources = [⟨"A", 1, true, 1, 70000⟩] :=
  ⟨(C10_reinstate_resets_failures.1 ⟨"A", 1, false, 5, 0⟩ 70000 rfl (by decide)).1,
   ((C10_reinstate_resets_failures.2.1 [1, 2, 3, 4] ⟨"A", 1, true, 0, 0⟩ rfl rfl).2).2
     (by decide),
   by
     have h := (C10_reinstate_resets_failures.2.1 [1, 2, 3, 4, 5]
       ⟨"A", 1, true, 0, 0⟩ rfl rfl).2
     have hl : ¬ ((5 : Nat) < CIRCUIT_BREAKER_THRESHOLD) := by decide
     cases hb : (failureRun [1, 2, 3, 4, 5] (⟨"A", 1, true, 0, 0⟩ : DataSource)).healthy
     · rfl
     · exact absurd (h.1 hb) (by simpa using hl),
   C10_reinstate_resets_failures.2.2 "A" 1 5 0 70000 "still down"
     (fun _ => .fail "still down") [] none none (by decide) rfl rfl⟩

/-! ### Claim C9 -/

/-- C9 counterexample: a proof admitted at `t0 = 0` with window
W = 3600000 is still admitted FROM CACHE (zero ledger lookups) at
exactly `t = t0 + W`, where the claim requires the fresh cold path; and
on the data side, a cache record with `now - stored_at` exactly equal to
the TTL is treated as stale (a fresh upstream fetch is returned, not the
cached data), where the claim's "stale exactly when now - stored_at >
ttl" requires it to be served. -/
theorem C9_boundary_admits_from_cache :
    (0 : Nat) + ACCESS_WINDOW_MS = 3600000 ∧
    admitRequest "W" demoLedger 3600000 [("sig1", ⟨"sig1", 1000000, 0, 1⟩)]
        (.payment demoPayment) =
      ⟨.granted (grantResponse demoPayment 3600000),
       [("sig1", ⟨"sig1", 1000000, 0, 2⟩)], 0⟩ ∧
    (300000 : Nat) - 0 = CACHE_TTL ∧
    (fetchExploits (fun _ => .ok [⟨"fresh", 1⟩]) 300000 [srcA]
        [("exploits:all:all", ⟨[⟨"cached", 2⟩], 0⟩)] none none).outcome =
      .ok [⟨"fresh", 1⟩] := by
  exact ⟨rfl, rfl, rfl, rfl⟩

/-- C9 (amended): a proof admitted at `t0` is admitted from cache (zero
lookups) for every call with `t - t0 ≤ W` — boundary included — and for
`t - t0 > W` the entry is deleted and the payment-required challenge is
returned with no fresh verification on that call; a proof-cache record
is stale exactly when `now - stored_at > ttl`, while a response-cache
record is served only when `now - stored_at < ttl` (stale at ≥ ttl), and
a stale response-cache record is bypassed exactly like an absent one for
the outcome, source state and attempted sources. -/
theorem C9_expiry_and_staleness :
    (∀ (w : String) (ledger : String → TxLookup) (now : Nat)
       (cache : PaymentCache) (pd : X402Payment) (e : PaymentProof),
      pd.x402Version = 1 → pd.network = "solana-mainnet" →
      assocGet cache pd.payload.signature = some e →
      now - e.timestamp ≤ ACCESS_WINDOW_MS →
      admitRequest w ledger now cache (.payment pd) =
        ⟨.granted (grantResponse pd now),
         assocUpdate cache pd.payload.signature
           (fun pr => { pr with requestCount := pr.requestCount + 1 }), 0⟩) ∧
    (∀ (w : String) (ledger : String → TxLookup) (now : Nat)
       (cache : PaymentCache) (pd : X402Payment) (e : PaymentProof),
      pd.x402Version = 1 → pd.network = "solana-mainnet" →
      assocGet cache pd.payload.signature = some e →
      now - e.timestamp > ACCESS_WINDOW_MS →
      admitRequest w ledger now cache (.payment pd) =
        ⟨.paymentRequired, assocDelete cache pd.payload.signature, 0⟩) ∧
    (∀ (wire : Nat → WireResult) (now : Nat) (srcs : List DataSource)
       (cache : RespCache) (protocol chain : Option String) (e : RespEntry),
      assocGet cache (exploitsCacheKey protocol chain) = some e →
      now - e.timestamp < CACHE_TTL →
      fetchExploits wire now srcs cache protocol chain = ⟨.ok e.data, srcs, cache, []⟩) ∧
    (∀ (wire : Nat → WireResult) (now : Nat) (srcs : List DataSource)
       (cache : RespCache) (protocol chain : Option String) (e : RespEntry),
      assocGet cache (exploitsCacheKey protocol chain) = some e →
      CACHE_TTL ≤ now - e.timestamp →
      (fetchExploits wire now srcs cache protocol chain).outcome =
        (fetchExploits wire now srcs
          (assocDelete cache (exploitsCacheKey protocol chain)) protocol chain).outcome ∧
      (fetchExploits wire now srcs cache protocol chain).sources =
        (fetchExploits wire now srcs
          (assocDelete cache (exploitsCacheKey protocol chain)) protocol chain).sources ∧
      (fetchExploits wire now srcs cache protocol chain).attempted =
        (fetchExploits wire now srcs
          (assocDelete cache (exploitsCacheKey protocol chain)) protocol chain).attempted) := by
  refine ⟨?_, ?_, ?_, ?_⟩
  · intro w ledger now cache pd e hver hnet hget hlive
    exact admit_cache_hit_live w ledger now cache pd e hver hnet hget hlive
  · intro w ledger now cache pd e hver hnet hget hexp
    exact admit_cache_hit_expired w ledger now cache pd e hver hnet hget hexp
  · intro wire now srcs cache protocol chain e hget hfresh
    simp [fetchExploits, hget, hfresh]
  · intro wire now srcs cache protocol chain e hget hstale
    have hnot : ¬ (now - e.timestamp < CACHE_TTL) := by omega
    have hdel : assocGet (assocDelete cache (exploitsCacheKey protocol chain))
        (exploitsCacheKey protocol chain) = none :=
      assocGet_assocDelete cache _
    simp only [fetchExploits, hget, hnot, if_false, hdel]
    exact fetchLoop_cache_irrelevant wire now _ _ _ srcs cache _ []

/-- Witness for C9's amended theorem at concrete inputs. -/
theorem C9_expiry_and_staleness_witness :
    admitRequest "W" demoLedger 3600000 [("sig1", ⟨"sig1", 1000000, 0, 1⟩)]
        (.payment demoPayment) =
      ⟨.granted (grantResponse demoPayment 3600000),
       assocUpdate [("sig1", ⟨"sig1", 1000000, 0, 1⟩)] "sig1"
         (fun pr => { pr with requestCount := pr.requestCount + 1 }), 0⟩ ∧
    admitRequest "W" demoLedger 3600001 [("sig1", ⟨"sig1", 1000000, 0, 1⟩)]
        (.payment demoPayment) =
      ⟨.paymentRequired, assocDelete [("sig1", ⟨"sig1", 1000000, 0, 1⟩)] "sig1", 0⟩ ∧
    fetchExploits (fun _ => .fail "down") 299999 [srcA]
        [("exploits:all:all", ⟨[⟨"cached", 2⟩], 0⟩)] none none =
      ⟨.ok [⟨"cached", 2⟩], [srcA],
       [("exploits:all:all", ⟨[⟨"cached", 2⟩], 0⟩)], []⟩ ∧
    (fetchExploits (fun _ => .fail "down") 300000 [srcA]
        [("exploits:all:all", ⟨[⟨"cached", 2⟩], 0⟩)] none none).outcome =
      (fetchExploits (fun _ => .fail "down") 300000 [srcA]
        (assocDelete [("exploits:all:all", ⟨[⟨"cached", 2⟩], 0⟩)] "exploits:all:all")
        none none).outcome :=
  ⟨C9_expiry_and_staleness.1 "W" demoLedger 3600000
     [("sig1", ⟨"sig1", 1000000, 0, 1⟩)] demoPayment ⟨"sig1", 1000000, 0, 1⟩
     rfl rfl (by decide) (by decide),
   C9_expiry_and_staleness.2.1 "W" demoLedger 3600001
     [("sig1", ⟨"sig1", 1000000, 0, 1⟩)] demoPayment ⟨"sig1", 1000000, 0, 1⟩
     rfl rfl (by decide) (by decide),
   C9_expiry_and_staleness.2.2.1 (fun _ => .fail "down") 299999 [srcA]
     [("exploits:all:all", ⟨[⟨"cached", 2⟩], 0⟩)] none none ⟨[⟨"cached", 2⟩], 0⟩
     (by decide) (by decide),
   (C9_expiry_and_staleness.2.2.2 (fun _ => .fail "down") 300000 [srcA]
     [("exploits:all:all", ⟨[⟨"cached", 2⟩], 0⟩)] none none ⟨[⟨"cached", 2⟩], 0⟩
     (by decide) (by decide)).1⟩

end RiskAuditor
